import Mathlib

/-!
Verification of the capybaradb Python client core: the EmbImage media object
(`src/capybaradb/_emb_json/_emb_image.py`), the document transformer and the
response classifier (`src/capybaradb/_collection.py`).

Machine integers are modelled as `Int`; Python `str` as `String`; a raised
exception as `Except.error` (or a dedicated outcome constructor when the
exception escapes the function under study).
-/

/-- JSON values as produced by Python json decoding: objects are ordered
association lists; numbers are restricted to integers (no claim involves
floats). -/
inductive JVal where
  | null : JVal
  | bool : Bool → JVal
  | int : Int → JVal
  | str : String → JVal
  | arr : List JVal → JVal
  | obj : List (String × JVal) → JVal
deriving Repr

/-- Python dict .get on a decoded JSON object: the stored value, or none when
the key is absent. Objects decoded from JSON have distinct keys; lookup returns
the first binding. -/
def pyGet (d : List (String × JVal)) (k : String) : Option JVal :=
  match d with
  | [] => none
  | (k2, v) :: rest => if k2 = k then some v else pyGet rest k

/-- Field access where a stored JSON null behaves like an absent key: json.loads
maps null to Python None, and the consuming code (EmbImage.from_json) treats
None exactly like a missing field. -/
def jgetOpt (d : List (String × JVal)) (k : String) : Option JVal :=
  match pyGet d k with
  | some JVal.null => none
  | r => r

def jgetStr (d : List (String × JVal)) (k : String) : Option String :=
  match jgetOpt d k with
  | some (JVal.str s) => some s
  | _ => none

def jgetInt (d : List (String × JVal)) (k : String) : Option Int :=
  match jgetOpt d k with
  | some (JVal.int n) => some n
  | _ => none

def jgetBool (d : List (String × JVal)) (k : String) : Option Bool :=
  match jgetOpt d k with
  | some (JVal.bool b) => some b
  | _ => none

/-- A JSON array all of whose elements are strings, as a list of strings. -/
def asStrList : List JVal → Option (List String)
  | [] => some []
  | JVal.str s :: rest => (asStrList rest).map (fun l => s :: l)
  | _ => none

def jgetStrList (d : List (String × JVal)) (k : String) : Option (List String) :=
  match jgetOpt d k with
  | some (JVal.arr xs) => asStrList xs
  | _ => none

/-- Python str() of a decoded JSON value, used only to build the error message
for a wire mime_type field that is not a string (a path no claim exercises);
array and object renderings are abbreviated. -/
def jvalPyStr : JVal → String
  | JVal.null => "None"
  | JVal.bool true => "True"
  | JVal.bool false => "False"
  | JVal.int n => toString n
  | JVal.str s => s
  | JVal.arr _ => "[...]"
  | JVal.obj _ => "\x7b...\x7d"

/-- Characters of the standard base64 alphabet. -/
def isBase64Char (c : Char) : Bool :=
  c.isUpper || c.isLower || c.isDigit || c == '+' || c == '/'

/-- Model of Python base64.b64decode(s, validate=True) succeeding: canonical
base64, i.e. alphabet characters in groups of four with at most two trailing
pad characters. The claims only exercise clearly valid or clearly invalid
payloads, on which this matches CPython. -/
def b64decodable (s : String) : Bool :=
  let cs := s.data
  let pad := (cs.reverse.takeWhile (fun c => c == '=')).length
  decide (cs.length % 4 = 0) && decide (pad ≤ 2) &&
    (cs.take (cs.length - pad)).all isBase64Char

-- Modelled from the spec: the embedding-model identifier constants (the
-- EmbModels file is not under src/); §4.1 fixes "a fixed enumerated set (e.g.
-- three supported identifiers)". The claims depend only on membership, not on
-- the identifier spellings.
def EmbModels.TEXT_EMBEDDING_3_SMALL : String := "text-embedding-3-small"

def EmbModels.TEXT_EMBEDDING_3_LARGE : String := "text-embedding-3-large"

def EmbModels.TEXT_EMBEDDING_ADA_002 : String := "text-embedding-ada-002"

-- Modelled from the spec: the vision-model identifier constants (the
-- VisionModels file is not under src/); §4.1 fixes "a fixed enumerated set of
-- four supported identifiers".
def VisionModels.GPT_4O_MINI : String := "gpt-4o-mini"

def VisionModels.GPT_4O : String := "gpt-4o"

def VisionModels.GPT_4O_TURBO : String := "gpt-4o-turbo"

def VisionModels.GPT_O1 : String := "o1"

/-- An EmbImage instance: the attributes assigned by EmbImage.__init__. Fields
follow the constructor's type annotations; `chunks` is the private `_chunks`
attribute. -/
structure EmbImage where
  data : String
  mime_type : String
  chunks : List String
  emb_model : Option String
  vision_model : Option String
  max_chunk_size : Option Int
  chunk_overlap : Option Int
  is_separator_regex : Option Bool
  separators : Option (List String)
  keep_separator : Option Bool
deriving Repr, DecidableEq

def EmbImage.SUPPORTED_EMB_MODELS : List String :=
  [EmbModels.TEXT_EMBEDDING_3_SMALL,
   EmbModels.TEXT_EMBEDDING_3_LARGE,
   EmbModels.TEXT_EMBEDDING_ADA_002]

def EmbImage.SUPPORTED_VISION_MODELS : List String :=
  [VisionModels.GPT_4O_MINI,
   VisionModels.GPT_4O,
   VisionModels.GPT_4O_TURBO,
   VisionModels.GPT_O1]

def EmbImage.SUPPORTED_MIME_TYPES : List String :=
  ["image/jpeg", "image/jpg", "image/png", "image/gif", "image/webp"]

/-- Python str.strip() with no argument: whitespace removed from both ends,
modelled over the character list (the claims only use ASCII payloads). -/
def pyStrip (s : String) : List Char :=
  ((s.data.dropWhile Char.isWhitespace).reverse.dropWhile Char.isWhitespace).reverse

/-- EmbImage.is_valid_data: the isinstance(data, str) conjunct holds by typing;
then the non-emptiness check (data.strip() != "") followed by base64
decodability. -/
def EmbImage.is_valid_data (data : String) : Bool :=
  decide (pyStrip data ≠ []) && b64decodable data

def EmbImage.is_valid_mime_type (mime_type : String) : Bool :=
  EmbImage.SUPPORTED_MIME_TYPES.contains mime_type

def EmbImage.is_valid_emb_model : Option String → Bool
  | none => true
  | some emb_model => EmbImage.SUPPORTED_EMB_MODELS.contains emb_model

def EmbImage.is_valid_vision_model : Option String → Bool
  | none => true
  | some vision_model => EmbImage.SUPPORTED_VISION_MODELS.contains vision_model

def EmbImage.invalid_data_msg : String :=
  "Invalid data: must be a non-empty string containing valid base64-encoded image data."

def EmbImage.unsupported_mime_type_msg (mime_type : String) : String :=
  let supported_list := String.intercalate ", " EmbImage.SUPPORTED_MIME_TYPES
  s!"Unsupported mime type: '{mime_type}'. Supported types are: {supported_list}"

def EmbImage.invalid_emb_model_msg (emb_model : String) : String :=
  let supported_list := String.intercalate ", " EmbImage.SUPPORTED_EMB_MODELS
  s!"Invalid embedding model: '{emb_model}' is not supported. Supported models are: {supported_list}"

def EmbImage.invalid_vision_model_msg (vision_model : String) : String :=
  let supported_list := String.intercalate ", " EmbImage.SUPPORTED_VISION_MODELS
  s!"Invalid vision model: '{vision_model}' is not supported. Supported models are: {supported_list}"

/-- EmbImage.__init__: the four validation checks in source order, then the
attribute assignments (with `_chunks = []`). A raised ValueError is modelled as
Except.error carrying its message. In the model-name error messages the
interpolated value is recovered with getD; the branch is reachable only when
the option holds some value, so the default is never used. -/
def EmbImage.init (data mime_type : String) (emb_model vision_model : Option String)
    (max_chunk_size chunk_overlap : Option Int) (is_separator_regex : Option Bool)
    (separators : Option (List String)) (keep_separator : Option Bool) :
    Except String EmbImage :=
  if !EmbImage.is_valid_data data then
    Except.error EmbImage.invalid_data_msg
  else if !EmbImage.is_valid_mime_type mime_type then
    Except.error (EmbImage.unsupported_mime_type_msg mime_type)
  else if emb_model.isSome && !EmbImage.is_valid_emb_model emb_model then
    Except.error (EmbImage.invalid_emb_model_msg (emb_model.getD ""))
  else if vision_model.isSome && !EmbImage.is_valid_vision_model vision_model then
    Except.error (EmbImage.invalid_vision_model_msg (vision_model.getD ""))
  else
    Except.ok ⟨data, mime_type, [], emb_model, vision_model, max_chunk_size,
      chunk_overlap, is_separator_regex, separators, keep_separator⟩

/-- EmbImage.__init__ invoked without the emb_model and vision_model arguments:
the Python default parameter values from the constructor signature are
EmbModels.TEXT_EMBEDDING_3_SMALL and VisionModels.GPT_4O_MINI (and None for
every chunking field). -/
def EmbImage.initDefaults (data mime_type : String) : Except String EmbImage :=
  EmbImage.init data mime_type (some EmbModels.TEXT_EMBEDDING_3_SMALL)
    (some VisionModels.GPT_4O_MINI) none none none none none

/-- A singleton or empty field list, matching the conditional dict insertions of
EmbImage.to_json. -/
def optFieldJ (k : String) (v : Option JVal) : List (String × JVal) :=
  match v with
  | some j => [(k, j)]
  | none => []

/-- The inner dictionary built by EmbImage.to_json, in insertion order: data and
mime_type unconditionally, chunks only when non-empty, every optional field only
when not None. -/
def EmbImage.to_json_fields (x : EmbImage) : List (String × JVal) :=
  [("data", JVal.str x.data), ("mime_type", JVal.str x.mime_type)]
    ++ (if x.chunks.isEmpty then [] else [("chunks", JVal.arr (x.chunks.map JVal.str))])
    ++ optFieldJ "emb_model" (x.emb_model.map JVal.str)
    ++ optFieldJ "vision_model" (x.vision_model.map JVal.str)
    ++ optFieldJ "max_chunk_size" (x.max_chunk_size.map JVal.int)
    ++ optFieldJ "chunk_overlap" (x.chunk_overlap.map JVal.int)
    ++ optFieldJ "is_separator_regex" (x.is_separator_regex.map JVal.bool)
    ++ optFieldJ "separators" (x.separators.map (fun l => JVal.arr (l.map JVal.str)))
    ++ optFieldJ "keep_separator" (x.keep_separator.map JVal.bool)

/-- EmbImage.to_json: the tagged wire object. -/
def EmbImage.to_json (x : EmbImage) : JVal :=
  JVal.obj [("@embImage", JVal.obj x.to_json_fields)]

def EmbImage.missing_data_msg : String :=
  "JSON data must include 'data' field under '@embImage'. This field should contain base64-encoded image data."

def EmbImage.missing_mime_type_msg : String :=
  let supported_list := String.intercalate ", " EmbImage.SUPPORTED_MIME_TYPES
  s!"JSON data must include 'mime_type' field under '@embImage'. Supported types are: {supported_list}"

/-- EmbImage.from_json: takes the inner dictionary (the value under
"@embImage"). data and mime_type must be present (a stored JSON null is Python
None, hence treated as absent); the remaining fields are read with .get and
passed positionally to the constructor, so the constructor's default parameter
values are not applied; finally `_chunks` is overwritten with the wire chunks
(empty default). A wire data value that is not a string fails the constructor's
isinstance check, producing the invalid-data message; a non-string mime_type is
never in the supported list, producing the unsupported-mime message with the
value interpolated. -/
def EmbImage.from_json (json_dict : List (String × JVal)) : Except String EmbImage :=
  match jgetOpt json_dict "data" with
  | none => Except.error EmbImage.missing_data_msg
  | some (JVal.str image_data) =>
    match jgetOpt json_dict "mime_type" with
    | none => Except.error EmbImage.missing_mime_type_msg
    | some (JVal.str mime_type) =>
      match EmbImage.init image_data mime_type (jgetStr json_dict "emb_model")
          (jgetStr json_dict "vision_model") (jgetInt json_dict "max_chunk_size")
          (jgetInt json_dict "chunk_overlap") (jgetBool json_dict "is_separator_regex")
          (jgetStrList json_dict "separators") (jgetBool json_dict "keep_separator") with
      | Except.error e => Except.error e
      | Except.ok inst =>
        Except.ok { inst with chunks := (jgetStrList json_dict "chunks").getD [] }
    | some v => Except.error (EmbImage.unsupported_mime_type_msg (jvalPyStr v))
  | some _ => Except.error EmbImage.invalid_data_msg

/-- Modelled from the spec: the EmbText media object (its source file
_emb_text.py is not under src/, only its importer is); §3 gives its fields
(data, optional embedding model, chunking configuration, chunks) and §6 its
wire shape. -/
structure EmbText where
  data : String
  chunks : List String
  emb_model : Option String
  max_chunk_size : Option Int
  chunk_overlap : Option Int
  is_separator_regex : Option Bool
  separators : Option (List String)
  keep_separator : Option Bool
deriving Repr, DecidableEq

/-- A document value: the JSON-like trees handled by
Collection.transform_emb_text (mappings, ordered sequences, scalars, and
media-object leaves). -/
inductive Doc where
  | null : Doc
  | bool : Bool → Doc
  | int : Int → Doc
  | str : String → Doc
  | embText : EmbText → Doc
  | embImage : EmbImage → Doc
  | dict : List (String × Doc) → Doc
  | list : List Doc → Doc
deriving Repr

/-- A singleton or empty field list over Doc, for the omitted-when-absent wire
fields. -/
def optFieldD (k : String) (v : Option Doc) : List (String × Doc) :=
  match v with
  | some d => [(k, d)]
  | none => []

/-- Modelled from the spec: EmbText.to_json (the serializer of the missing
_emb_text.py), following the §6 wire shape: a tagged object carrying data
unconditionally, chunks only when non-empty, and each optional field only when
present. -/
def EmbText.to_json (t : EmbText) : Doc :=
  Doc.dict [("@embText", Doc.dict (
    [("data", Doc.str t.data)]
    ++ (if t.chunks.isEmpty then [] else [("chunks", Doc.list (t.chunks.map Doc.str))])
    ++ optFieldD "embeddingModel" (t.emb_model.map Doc.str)
    ++ optFieldD "maxChunkSize" (t.max_chunk_size.map Doc.int)
    ++ optFieldD "chunkOverlap" (t.chunk_overlap.map Doc.int)
    ++ optFieldD "isSeparatorRegex" (t.is_separator_regex.map Doc.bool)
    ++ optFieldD "separators" (t.separators.map (fun l => Doc.list (l.map Doc.str)))
    ++ optFieldD "keepSeparator" (t.keep_separator.map Doc.bool)))]

mutual

/-- The per-value conversion of Collection.transform_emb_text: an EmbText value
becomes its wire JSON, a nested mapping is recursed into, an ordered sequence is
handled element-wise, and any other value (scalars, and in particular EmbImage
instances) is left unchanged. -/
def transformValue : Doc → Doc
  | Doc.embText t => EmbText.to_json t
  | Doc.dict fields => Doc.dict (transform_emb_text fields)
  | Doc.list xs => Doc.list (transformItems xs)
  | v => v

/-- Collection.transform_emb_text on a document (a mapping): every entry is
rebuilt with its transformed value. The Python mutates the dict in place; the
model is the resulting tree. -/
def transform_emb_text : List (String × Doc) → List (String × Doc)
  | [] => []
  | (k, v) :: rest => (k, transformValue v) :: transform_emb_text rest

/-- The list comprehension inside Collection.transform_emb_text: an element
that is a mapping is transformed, every other element passes through
verbatim. -/
def transformItem : Doc → Doc
  | Doc.dict fields => Doc.dict (transform_emb_text fields)
  | v => v

def transformItems : List Doc → List Doc
  | [] => []
  | x :: rest => transformItem x :: transformItems rest

end

/-- A transport response as Collection.handle_response observes it: the status
code, the body text, and the result of JSON-decoding the body (none when the
body is not valid JSON). -/
structure Response where
  status_code : Int
  text : String
  json : Option JVal
deriving Repr

/-- The possible outcomes of Collection.handle_response: the returned decoded
payload, the typed errors it raises (carrying the envelope code and message
values), the APIClientError fallback (carrying the transport status code and
the raw body text), and the exceptions that escape the function unclassified. -/
inductive HandleResult where
  | success : JVal → HandleResult
  | authenticationError : JVal → JVal → HandleResult
  | clientRequestError : JVal → JVal → HandleResult
  | serverError : JVal → JVal → HandleResult
  | apiClientError : Int → String → HandleResult
  | uncaughtJSONDecodeError : HandleResult
  | uncaughtTypeError : HandleResult
  | uncaughtAttributeError : HandleResult
deriving Repr

/-- Collection.handle_response. requests' raise_for_status raises HTTPError
exactly for status codes 400-599; on that branch the body is decoded as an
error envelope, the status field is read (default "error") but unused, code and
message are read with dict .get defaults (the default applies only when the key
is absent; a stored JSON null is kept, as Python None). code == 401 is an
equality test (False for any non-int); the order comparison 400 <= code < 500
is valid for ints and bools (True/False compare as 1/0, landing in the else
branch) and raises an uncaught TypeError otherwise; .get on a non-object body
raises an uncaught AttributeError. A body that is not valid JSON on the error
branch falls back to APIClientError with the raw text; on the non-raising
branch it escapes as an uncaught JSONDecodeError from response.json(). -/
def handle_response (response : Response) : HandleResult :=
  if 400 ≤ response.status_code ∧ response.status_code ≤ 599 then
    match response.json with
    | some (JVal.obj error_data) =>
      let code := (pyGet error_data "code").getD (JVal.int 500)
      let message := (pyGet error_data "message").getD (JVal.str "An unknown error occurred.")
      match code with
      | JVal.int c =>
        if c = 401 then HandleResult.authenticationError (JVal.int c) message
        else if 400 ≤ c ∧ c < 500 then HandleResult.clientRequestError (JVal.int c) message
        else HandleResult.serverError (JVal.int c) message
      | JVal.bool b => HandleResult.serverError (JVal.bool b) message
      | _ => HandleResult.uncaughtTypeError
    | some _ => HandleResult.uncaughtAttributeError
    | none => HandleResult.apiClientError response.status_code response.text
  else
    match response.json with
    | some payload => HandleResult.success payload
    | none => HandleResult.uncaughtJSONDecodeError

/-- The invariant established by both construction paths: exactly the four
checks of EmbImage.__init__. -/
def EmbImage.Valid (x : EmbImage) : Prop :=
  EmbImage.is_valid_data x.data = true ∧
  EmbImage.is_valid_mime_type x.mime_type = true ∧
  EmbImage.is_valid_emb_model x.emb_model = true ∧
  EmbImage.is_valid_vision_model x.vision_model = true

instance (x : EmbImage) : Decidable x.Valid := by
  unfold EmbImage.Valid
  infer_instance

theorem pyGet_append (l1 l2 : List (String × JVal)) (k : String) :
    pyGet (l1 ++ l2) k =
      match pyGet l1 k with
      | some v => some v
      | none => pyGet l2 k := by
  induction l1 with
  | nil => simp [pyGet]
  | cons h t ih =>
    obtain ⟨k2, v⟩ := h
    by_cases hk : k2 = k <;> simp [pyGet, hk, ih]

theorem pyGet_optFieldJ (k2 k : String) (v : Option JVal) :
    pyGet (optFieldJ k2 v) k = if k2 = k then v else none := by
  cases v <;> by_cases h : k2 = k <;> simp [optFieldJ, pyGet, h]

theorem asStrList_map_str (l : List String) : asStrList (l.map JVal.str) = some l := by
  induction l with
  | nil => rfl
  | cons h t ih => simp [asStrList, ih]

theorem to_json_fields_data (x : EmbImage) :
    jgetOpt x.to_json_fields "data" = some (JVal.str x.data) := by
  simp [EmbImage.to_json_fields, jgetOpt, pyGet]

theorem to_json_fields_mime_type (x : EmbImage) :
    jgetOpt x.to_json_fields "mime_type" = some (JVal.str x.mime_type) := by
  simp [EmbImage.to_json_fields, jgetOpt, pyGet]

theorem to_json_fields_emb_model (x : EmbImage) :
    jgetStr x.to_json_fields "emb_model" = x.emb_model := by
  obtain ⟨d, mt, ch, em, vm, mcs, co, isr, seps, ks⟩ := x
  cases ch <;> cases em <;>
    simp [EmbImage.to_json_fields, jgetStr, jgetOpt, pyGet, pyGet_append, pyGet_optFieldJ]

theorem to_json_fields_vision_model (x : EmbImage) :
    jgetStr x.to_json_fields "vision_model" = x.vision_model := by
  obtain ⟨d, mt, ch, em, vm, mcs, co, isr, seps, ks⟩ := x
  cases ch <;> cases vm <;>
    simp [EmbImage.to_json_fields, jgetStr, jgetOpt, pyGet, pyGet_append, pyGet_optFieldJ]

theorem to_json_fields_max_chunk_size (x : EmbImage) :
    jgetInt x.to_json_fields "max_chunk_size" = x.max_chunk_size := by
  obtain ⟨d, mt, ch, em, vm, mcs, co, isr, seps, ks⟩ := x
  cases ch <;> cases mcs <;>
    simp [EmbImage.to_json_fields, jgetInt, jgetOpt, pyGet, pyGet_append, pyGet_optFieldJ]

theorem to_json_fields_chunk_overlap (x : EmbImage) :
    jgetInt x.to_json_fields "chunk_overlap" = x.chunk_overlap := by
  obtain ⟨d, mt, ch, em, vm, mcs, co, isr, seps, ks⟩ := x
  cases ch <;> cases co <;>
    simp [EmbImage.to_json_fields, jgetInt, jgetOpt, pyGet, pyGet_append, pyGet_optFieldJ]

theorem to_json_fields_is_separator_regex (x : EmbImage) :
    jgetBool x.to_json_fields "is_separator_regex" = x.is_separator_regex := by
  obtain ⟨d, mt, ch, em, vm, mcs, co, isr, seps, ks⟩ := x
  cases ch <;> cases isr <;>
    simp [EmbImage.to_json_fields, jgetBool, jgetOpt, pyGet, pyGet_append, pyGet_optFieldJ]

theorem to_json_fields_separators (x : EmbImage) :
    jgetStrList x.to_json_fields "separators" = x.separators := by
  obtain ⟨d, mt, ch, em, vm, mcs, co, isr, seps, ks⟩ := x
  cases ch <;> cases seps <;>
    simp [EmbImage.to_json_fields, jgetStrList, jgetOpt, pyGet, pyGet_append, pyGet_optFieldJ,
      asStrList, asStrList_map_str]

theorem to_json_fields_keep_separator (x : EmbImage) :
    jgetBool x.to_json_fields "keep_separator" = x.keep_separator := by
  obtain ⟨d, mt, ch, em, vm, mcs, co, isr, seps, ks⟩ := x
  cases ch <;> cases ks <;>
    simp [EmbImage.to_json_fields, jgetBool, jgetOpt, pyGet, pyGet_append, pyGet_optFieldJ]

theorem to_json_fields_chunks (x : EmbImage) :
    jgetStrList x.to_json_fields "chunks" =
      if x.chunks.isEmpty then none else some x.chunks := by
  obtain ⟨d, mt, ch, em, vm, mcs, co, isr, seps, ks⟩ := x
  cases ch <;>
    simp [EmbImage.to_json_fields, jgetStrList, jgetOpt, pyGet, pyGet_append, pyGet_optFieldJ,
      asStrList, asStrList_map_str]

theorem EmbImage.init_ok (data mime_type : String) (em vm : Option String)
    (mcs co : Option Int) (isr : Option Bool) (seps : Option (List String)) (ks : Option Bool)
    (h1 : EmbImage.is_valid_data data = true)
    (h2 : EmbImage.is_valid_mime_type mime_type = true)
    (h3 : EmbImage.is_valid_emb_model em = true)
    (h4 : EmbImage.is_valid_vision_model vm = true) :
    EmbImage.init data mime_type em vm mcs co isr seps ks =
      Except.ok ⟨data, mime_type, [], em, vm, mcs, co, isr, seps, ks⟩ := by
  simp [EmbImage.init, h1, h2, h3, h4]

theorem EmbImage.init_ok_inv (data mime_type : String) (em vm : Option String)
    (mcs co : Option Int) (isr : Option Bool) (seps : Option (List String)) (ks : Option Bool)
    (inst : EmbImage)
    (h : EmbImage.init data mime_type em vm mcs co isr seps ks = Except.ok inst) :
    inst = ⟨data, mime_type, [], em, vm, mcs, co, isr, seps, ks⟩ := by
  unfold EmbImage.init at h
  repeat' split at h
  all_goals simp_all

theorem embimage_from_to_json (x : EmbImage) (h : x.Valid) :
    EmbImage.from_json x.to_json_fields = Except.ok x := by
  obtain ⟨h1, h2, h3, h4⟩ := h
  simp only [EmbImage.from_json, to_json_fields_data, to_json_fields_mime_type,
    to_json_fields_emb_model, to_json_fields_vision_model, to_json_fields_max_chunk_size,
    to_json_fields_chunk_overlap, to_json_fields_is_separator_regex, to_json_fields_separators,
    to_json_fields_keep_separator, to_json_fields_chunks,
    EmbImage.init_ok x.data x.mime_type x.emb_model x.vision_model x.max_chunk_size
      x.chunk_overlap x.is_separator_regex x.separators x.keep_separator h1 h2 h3 h4]
  obtain ⟨d, mt, ch, em, vm, mcs, co, isr, seps, ks⟩ := x
  cases ch <;> simp

theorem to_json_pyGet_data (x : EmbImage) :
    pyGet x.to_json_fields "data" = some (JVal.str x.data) := by
  simp [EmbImage.to_json_fields, pyGet]

theorem to_json_pyGet_mime_type (x : EmbImage) :
    pyGet x.to_json_fields "mime_type" = some (JVal.str x.mime_type) := by
  simp [EmbImage.to_json_fields, pyGet]

theorem to_json_pyGet_chunks (x : EmbImage) :
    pyGet x.to_json_fields "chunks" =
      if x.chunks.isEmpty then none else some (JVal.arr (x.chunks.map JVal.str)) := by
  obtain ⟨d, mt, ch, em, vm, mcs, co, isr, seps, ks⟩ := x
  cases ch <;> simp [EmbImage.to_json_fields, pyGet, pyGet_append, pyGet_optFieldJ]

theorem to_json_pyGet_emb_model (x : EmbImage) :
    pyGet x.to_json_fields "emb_model" = x.emb_model.map JVal.str := by
  obtain ⟨d, mt, ch, em, vm, mcs, co, isr, seps, ks⟩ := x
  cases ch <;> cases em <;> simp [EmbImage.to_json_fields, pyGet, pyGet_append, pyGet_optFieldJ]

theorem to_json_pyGet_vision_model (x : EmbImage) :
    pyGet x.to_json_fields "vision_model" = x.vision_model.map JVal.str := by
  obtain ⟨d, mt, ch, em, vm, mcs, co, isr, seps, ks⟩ := x
  cases ch <;> cases vm <;> simp [EmbImage.to_json_fields, pyGet, pyGet_append, pyGet_optFieldJ]

theorem to_json_pyGet_max_chunk_size (x : EmbImage) :
    pyGet x.to_json_fields "max_chunk_size" = x.max_chunk_size.map JVal.int := by
  obtain ⟨d, mt, ch, em, vm, mcs, co, isr, seps, ks⟩ := x
  cases ch <;> cases mcs <;> simp [EmbImage.to_json_fields, pyGet, pyGet_append, pyGet_optFieldJ]

theorem to_json_pyGet_chunk_overlap (x : EmbImage) :
    pyGet x.to_json_fields "chunk_overlap" = x.chunk_overlap.map JVal.int := by
  obtain ⟨d, mt, ch, em, vm, mcs, co, isr, seps, ks⟩ := x
  cases ch <;> cases co <;> simp [EmbImage.to_json_fields, pyGet, pyGet_append, pyGet_optFieldJ]

theorem to_json_pyGet_is_separator_regex (x : EmbImage) :
    pyGet x.to_json_fields "is_separator_regex" = x.is_separator_regex.map JVal.bool := by
  obtain ⟨d, mt, ch, em, vm, mcs, co, isr, seps, ks⟩ := x
  cases ch <;> cases isr <;> simp [EmbImage.to_json_fields, pyGet, pyGet_append, pyGet_optFieldJ]

theorem to_json_pyGet_separators (x : EmbImage) :
    pyGet x.to_json_fields "separators" =
      x.separators.map (fun l => JVal.arr (l.map JVal.str)) := by
  obtain ⟨d, mt, ch, em, vm, mcs, co, isr, seps, ks⟩ := x
  cases ch <;> cases seps <;> simp [EmbImage.to_json_fields, pyGet, pyGet_append, pyGet_optFieldJ]

theorem to_json_pyGet_keep_separator (x : EmbImage) :
    pyGet x.to_json_fields "keep_separator" = x.keep_separator.map JVal.bool := by
  obtain ⟨d, mt, ch, em, vm, mcs, co, isr, seps, ks⟩ := x
  cases ch <;> cases ks <;> simp [EmbImage.to_json_fields, pyGet, pyGet_append, pyGet_optFieldJ]

theorem mem_optFieldJ (k2 k : String) (ov : Option JVal) (v : JVal) :
    ((k, v) ∈ optFieldJ k2 ov) ↔ (k = k2 ∧ ov = some v) := by
  cases ov <;> simp [optFieldJ]
  aesop

theorem to_json_fields_keys (x : EmbImage) (k : String) (v : JVal)
    (h : (k, v) ∈ x.to_json_fields) :
    k ∈ (["data", "mime_type", "chunks", "emb_model", "vision_model", "max_chunk_size",
      "chunk_overlap", "is_separator_regex", "separators", "keep_separator"] : List String) := by
  obtain ⟨d, mt, ch, em, vm, mcs, co, isr, seps, ks⟩ := x
  cases ch <;>
    (simp [EmbImage.to_json_fields, mem_optFieldJ, List.mem_append, Prod.ext_iff] at h;
     simp only [List.mem_cons, List.not_mem_nil, or_false];
     tauto)

theorem handle_response_envelope (sc : Int) (text : String) (env : List (String × JVal))
    (c : Int) (h1 : 400 ≤ sc) (h2 : sc ≤ 599)
    (hc : (pyGet env "code").getD (JVal.int 500) = JVal.int c) :
    handle_response ⟨sc, text, some (JVal.obj env)⟩ =
      (if c = 401 then
        HandleResult.authenticationError (JVal.int c)
          ((pyGet env "message").getD (JVal.str "An unknown error occurred."))
      else if 400 ≤ c ∧ c < 500 then
        HandleResult.clientRequestError (JVal.int c)
          ((pyGet env "message").getD (JVal.str "An unknown error occurred."))
      else
        HandleResult.serverError (JVal.int c)
          ((pyGet env "message").getD (JVal.str "An unknown error occurred."))) := by
  have hcond : 400 ≤ sc ∧ sc ≤ 599 := ⟨h1, h2⟩
  simp only [handle_response, hcond, and_self, if_true, hc]

theorem handle_response_no_json_error (sc : Int) (text : String)
    (h1 : 400 ≤ sc) (h2 : sc ≤ 599) :
    handle_response ⟨sc, text, none⟩ = HandleResult.apiClientError sc text := by
  have hcond : 400 ≤ sc ∧ sc ≤ 599 := ⟨h1, h2⟩
  simp only [handle_response, hcond, and_self, if_true]

theorem transformValue_embText (t : EmbText) :
    transformValue (Doc.embText t) = EmbText.to_json t := by
  simp [transformValue]

theorem transformValue_dict (fields : List (String × Doc)) :
    transformValue (Doc.dict fields) = Doc.dict (transform_emb_text fields) := by
  simp [transformValue]

theorem transformValue_list (xs : List Doc) :
    transformValue (Doc.list xs) = Doc.list (transformItems xs) := by
  simp [transformValue]

theorem transformValue_embImage (i : EmbImage) :
    transformValue (Doc.embImage i) = Doc.embImage i := by
  simp [transformValue]

theorem transform_emb_text_cons (k : String) (v : Doc) (rest : List (String × Doc)) :
    transform_emb_text ((k, v) :: rest) = (k, transformValue v) :: transform_emb_text rest := by
  simp [transform_emb_text]

theorem transformItems_cons (x : Doc) (rest : List Doc) :
    transformItems (x :: rest) = transformItem x :: transformItems rest := by
  simp [transformItems]

theorem transformItem_dict (fields : List (String × Doc)) :
    transformItem (Doc.dict fields) = Doc.dict (transform_emb_text fields) := by
  simp [transformItem]

theorem transformItem_non_dict (x : Doc) (h : ∀ fields, x ≠ Doc.dict fields) :
    transformItem x = x := by
  cases x with
  | dict fields => exact absurd rfl (h fields)
  | null => simp [transformItem]
  | bool b => simp [transformItem]
  | int n => simp [transformItem]
  | str s => simp [transformItem]
  | embText t => simp [transformItem]
  | embImage i => simp [transformItem]
  | list xs => simp [transformItem]

theorem EmbImage.init_valid (data mime_type : String) (em vm : Option String)
    (mcs co : Option Int) (isr : Option Bool) (seps : Option (List String)) (ks : Option Bool)
    (inst : EmbImage)
    (h : EmbImage.init data mime_type em vm mcs co isr seps ks = Except.ok inst) :
    inst.Valid := by
  unfold EmbImage.init at h
  repeat' split at h
  all_goals try exact Except.noConfusion h
  injection h with h
  subst h
  rename_i h1 h2 h3 h4
  cases em <;> cases vm <;>
    simp_all [EmbImage.Valid, EmbImage.is_valid_emb_model, EmbImage.is_valid_vision_model]

/-- Claim C1 (code bug): Collection.transform_emb_text replaces only EmbText
mapping values; an EmbImage mapping value matches neither the EmbText
isinstance test nor the dict or list branches and is left in place - against
the claim and against the usage example in the EmbImage docstring, which
inserts a document holding an EmbImage through this very path. The theorem
evaluates the transformer at the failing input shape: a document with an
EmbImage value stays untransformed while an EmbText sibling is serialized. -/
theorem transform_leaves_embimage_in_place (img : EmbImage) (t : EmbText) (k k2 : String) :
    transform_emb_text [(k, Doc.embImage img), (k2, Doc.embText t)] =
      [(k, Doc.embImage img), (k2, EmbText.to_json t)] := by
  simp [transform_emb_text, transformValue_embImage, transformValue_embText]

/-- Claim C9 (confirmed): on a mapping value that is an ordered sequence the
transformer applies the per-element rule: exactly the elements that are
mappings are recursed into, every other element - in particular an EmbText or
EmbImage appearing directly as a sequence element - passes through verbatim,
while a media object inside a mapping inside the sequence is transformed. -/
theorem transformer_sequence_asymmetry :
    (∀ xs : List Doc, transformValue (Doc.list xs) = Doc.list (transformItems xs))
  ∧ (∀ (x : Doc) (rest : List Doc),
      transformItems (x :: rest) = transformItem x :: transformItems rest)
  ∧ (∀ fields : List (String × Doc),
      transformItem (Doc.dict fields) = Doc.dict (transform_emb_text fields))
  ∧ (∀ x : Doc, (∀ fields, x ≠ Doc.dict fields) → transformItem x = x)
  ∧ (∀ t : EmbText, transformItem (Doc.embText t) = Doc.embText t)
  ∧ (∀ i : EmbImage, transformItem (Doc.embImage i) = Doc.embImage i)
  ∧ (∀ (k : String) (t : EmbText),
      transform_emb_text [(k, Doc.embText t)] = [(k, EmbText.to_json t)]) := by
  refine ⟨transformValue_list, transformItems_cons, transformItem_dict,
    transformItem_non_dict, ?_, ?_, ?_⟩
  · intro t
    exact transformItem_non_dict _ (fun _ h => Doc.noConfusion h)
  · intro i
    exact transformItem_non_dict _ (fun _ h => Doc.noConfusion h)
  · intro k t
    simp [transform_emb_text, transformValue_embText]

/-- Witness for C9: the verbatim rule applied at a concrete EmbText sequence
element. -/
theorem transformer_sequence_asymmetry_witness :
    transformItem (Doc.embText ⟨"hello", [], none, none, none, none, none, none⟩) =
      Doc.embText ⟨"hello", [], none, none, none, none, none, none⟩ :=
  transformer_sequence_asymmetry.2.2.2.1 _ (fun _ h => Doc.noConfusion h)

/-- Counterexample to claim C2: max_chunk_size 10 and chunk_overlap 20 are both
supplied with overlap >= size, yet construction succeeds and produces an
instance. -/
theorem embimage_chunk_overlap_not_validated_cex :
    EmbImage.init "QUJD" "image/png" none none (some 10) (some 20) none none none =
      Except.ok ⟨"QUJD", "image/png", [], none, none, some 10, some 20, none, none, none⟩ := by
  rfl

/-- Claim C2 (amended): EmbImage construction applies no check at all to the
chunking configuration; with otherwise-valid arguments and both sizes supplied,
construction succeeds even when chunk_overlap >= max_chunk_size, storing both
values unchanged. -/
theorem embimage_chunk_config_unchecked (data mime_type : String) (em vm : Option String)
    (size overlap : Int) (isr : Option Bool) (seps : Option (List String)) (ks : Option Bool)
    (h1 : EmbImage.is_valid_data data = true)
    (h2 : EmbImage.is_valid_mime_type mime_type = true)
    (h3 : EmbImage.is_valid_emb_model em = true)
    (h4 : EmbImage.is_valid_vision_model vm = true)
    (_hbad : size ≤ overlap) :
    EmbImage.init data mime_type em vm (some size) (some overlap) isr seps ks =
      Except.ok ⟨data, mime_type, [], em, vm, some size, some overlap, isr, seps, ks⟩ :=
  EmbImage.init_ok data mime_type em vm (some size) (some overlap) isr seps ks h1 h2 h3 h4

/-- Witness for C2 (amended) at concrete sizes 5 and 7. -/
theorem embimage_chunk_config_unchecked_witness :
    EmbImage.is_valid_data "QUJE" = true ∧
    EmbImage.init "QUJE" "image/jpeg" none none (some 5) (some 7) none none none =
      Except.ok ⟨"QUJE", "image/jpeg", [], none, none, some 5, some 7, none, none, none⟩ :=
  ⟨by decide, embimage_chunk_config_unchecked "QUJE" "image/jpeg" none none 5 7 none none none
      (by decide) (by decide) rfl rfl (by decide)⟩

/-- Claim C4 (confirmed): for every EmbImage satisfying the construction
invariant (this covers every valid construction input and every instance
reconstructed by from_json, with any chunks), serialization is the tagged wire
object over the field dictionary, and deserializing that field dictionary
reconstructs exactly the same instance: identical data and mime type, every
optional field present or absent exactly as in the original, and identical
chunks. -/
theorem embimage_roundtrip (x : EmbImage) (h : x.Valid) :
    x.to_json = JVal.obj [("@embImage", JVal.obj x.to_json_fields)] ∧
    EmbImage.from_json x.to_json_fields = Except.ok x :=
  ⟨rfl, embimage_from_to_json x h⟩

/-- Witness for C4 at an instance with non-empty chunks. -/
theorem embimage_roundtrip_witness :
    EmbImage.Valid ⟨"QUJD", "image/png", ["a chunk"], some EmbModels.TEXT_EMBEDDING_3_SMALL,
      none, some 5, some 1, some true, some ["x"], some false⟩ ∧
    EmbImage.from_json (EmbImage.to_json_fields ⟨"QUJD", "image/png", ["a chunk"],
        some EmbModels.TEXT_EMBEDDING_3_SMALL, none, some 5, some 1, some true, some ["x"],
        some false⟩) =
      Except.ok ⟨"QUJD", "image/png", ["a chunk"], some EmbModels.TEXT_EMBEDDING_3_SMALL,
        none, some 5, some 1, some true, some ["x"], some false⟩ :=
  ⟨by decide, (embimage_roundtrip _ (by decide)).2⟩

/-- Claim C7 (confirmed): the serialization of any EmbImage always contains the
data and mime_type keys, contains chunks exactly when the chunks are non-empty,
contains each optional key exactly when the corresponding field is present
(carrying its value, never a null), and contains no key at all beyond these
ten. -/
theorem embimage_omission_contract (x : EmbImage) :
    pyGet x.to_json_fields "data" = some (JVal.str x.data) ∧
    pyGet x.to_json_fields "mime_type" = some (JVal.str x.mime_type) ∧
    pyGet x.to_json_fields "chunks" =
      (if x.chunks.isEmpty then none else some (JVal.arr (x.chunks.map JVal.str))) ∧
    pyGet x.to_json_fields "emb_model" = x.emb_model.map JVal.str ∧
    pyGet x.to_json_fields "vision_model" = x.vision_model.map JVal.str ∧
    pyGet x.to_json_fields "max_chunk_size" = x.max_chunk_size.map JVal.int ∧
    pyGet x.to_json_fields "chunk_overlap" = x.chunk_overlap.map JVal.int ∧
    pyGet x.to_json_fields "is_separator_regex" = x.is_separator_regex.map JVal.bool ∧
    pyGet x.to_json_fields "separators" =
      x.separators.map (fun l => JVal.arr (l.map JVal.str)) ∧
    pyGet x.to_json_fields "keep_separator" = x.keep_separator.map JVal.bool ∧
    ∀ k v, (k, v) ∈ x.to_json_fields →
      k ∈ (["data", "mime_type", "chunks", "emb_model", "vision_model", "max_chunk_size",
        "chunk_overlap", "is_separator_regex", "separators", "keep_separator"] : List String) :=
  ⟨to_json_pyGet_data x, to_json_pyGet_mime_type x, to_json_pyGet_chunks x,
   to_json_pyGet_emb_model x, to_json_pyGet_vision_model x, to_json_pyGet_max_chunk_size x,
   to_json_pyGet_chunk_overlap x, to_json_pyGet_is_separator_regex x,
   to_json_pyGet_separators x, to_json_pyGet_keep_separator x, to_json_fields_keys x⟩

/-- Witness for C7: the key-coverage conjunct applied at the first binding of a
concrete serialization. -/
theorem embimage_omission_contract_witness :
    "data" ∈ (["data", "mime_type", "chunks", "emb_model", "vision_model", "max_chunk_size",
      "chunk_overlap", "is_separator_regex", "separators", "keep_separator"] : List String) :=
  (embimage_omission_contract ⟨"QUJD", "image/png", [], none, none, none, none, none, none,
      none⟩).2.2.2.2.2.2.2.2.2.2 "data" (JVal.str "QUJD") (List.Mem.head _)

/-- Claim C8 (confirmed): EmbImage construction runs its checks in source order
- data validity (non-emptiness, then base64 decodability, sharing one message),
mime-type membership, embedding-model membership, vision-model membership, each
against its fixed allow-list - and fails with the message of the first failing
check; None is always accepted for the model fields; in particular empty data
fails, "image/bmp" fails with the message naming the supported mime types (even
when a model is also invalid), and unsupported models fail with the messages
naming the supported models. -/
theorem embimage_validation_order :
    (∀ data mime_type em vm mcs co isr seps ks,
        EmbImage.is_valid_data data = false →
        EmbImage.init data mime_type em vm mcs co isr seps ks =
          Except.error EmbImage.invalid_data_msg)
  ∧ (∀ data mime_type em vm mcs co isr seps ks,
        EmbImage.is_valid_data data = true →
        EmbImage.is_valid_mime_type mime_type = false →
        EmbImage.init data mime_type em vm mcs co isr seps ks =
          Except.error (EmbImage.unsupported_mime_type_msg mime_type))
  ∧ (∀ data mime_type m vm mcs co isr seps ks,
        EmbImage.is_valid_data data = true →
        EmbImage.is_valid_mime_type mime_type = true →
        EmbImage.SUPPORTED_EMB_MODELS.contains m = false →
        EmbImage.init data mime_type (some m) vm mcs co isr seps ks =
          Except.error (EmbImage.invalid_emb_model_msg m))
  ∧ (∀ data mime_type em v mcs co isr seps ks,
        EmbImage.is_valid_data data = true →
        EmbImage.is_valid_mime_type mime_type = true →
        EmbImage.is_valid_emb_model em = true →
        EmbImage.SUPPORTED_VISION_MODELS.contains v = false →
        EmbImage.init data mime_type em (some v) mcs co isr seps ks =
          Except.error (EmbImage.invalid_vision_model_msg v))
  ∧ (∀ data mime_type mcs co isr seps ks,
        EmbImage.is_valid_data data = true →
        EmbImage.is_valid_mime_type mime_type = true →
        EmbImage.init data mime_type none none mcs co isr seps ks =
          Except.ok ⟨data, mime_type, [], none, none, mcs, co, isr, seps, ks⟩)
  ∧ EmbImage.init "" "image/png" none none none none none none none =
      Except.error EmbImage.invalid_data_msg
  ∧ EmbImage.init "not base64!" "image/bmp" none none none none none none none =
      Except.error EmbImage.invalid_data_msg
  ∧ EmbImage.init "QUJD" "image/bmp" (some "not-a-model") none none none none none none =
      Except.error (EmbImage.unsupported_mime_type_msg "image/bmp")
  ∧ EmbImage.init "QUJD" "image/png" (some "not-a-model") none none none none none none =
      Except.error (EmbImage.invalid_emb_model_msg "not-a-model")
  ∧ EmbImage.init "QUJD" "image/png" (some EmbModels.TEXT_EMBEDDING_3_SMALL)
        (some "not-a-model") none none none none none =
      Except.error (EmbImage.invalid_vision_model_msg "not-a-model") := by
  refine ⟨?_, ?_, ?_, ?_, ?_, ?_, ?_, ?_, ?_, ?_⟩
  · intro data mt em vm mcs co isr seps ks h1
    simp [EmbImage.init, h1]
  · intro data mt em vm mcs co isr seps ks h1 h2
    simp [EmbImage.init, h1, h2]
  · intro data mt m vm mcs co isr seps ks h1 h2 h3
    have h3m : m ∉ EmbImage.SUPPORTED_EMB_MODELS := by simpa using h3
    simp [EmbImage.init, h1, h2, EmbImage.is_valid_emb_model, h3m]
  · intro data mt em v mcs co isr seps ks h1 h2 h3 h4
    have h4m : v ∉ EmbImage.SUPPORTED_VISION_MODELS := by simpa using h4
    simp [EmbImage.init, h1, h2, h3, EmbImage.is_valid_vision_model, h4m]
  · intro data mt mcs co isr seps ks h1 h2
    exact EmbImage.init_ok data mt none none mcs co isr seps ks h1 h2 rfl rfl
  · rfl
  · rfl
  · rfl
  · rfl
  · rfl

/-- Witness for C8: the first-check rule applied at empty data. -/
theorem embimage_validation_order_witness :
    EmbImage.is_valid_data "" = false ∧
    EmbImage.init "" "image/jpeg" none none none none none none none =
      Except.error EmbImage.invalid_data_msg :=
  ⟨by decide, embimage_validation_order.1 "" "image/jpeg" none none none none none none none
      (by decide)⟩

/-- Claim C10 (confirmed): constructing without supplying the model arguments
applies the Python default parameter values, yielding emb_model
TEXT_EMBEDDING_3_SMALL and vision_model GPT_4O_MINI (not None), so the
serialization carries both keys; reconstructing from a wire object lacking
those keys yields None in both fields (from_json passes its .get results
positionally, so the constructor defaults are not applied), and the resulting
serialization omits both keys. -/
theorem embimage_default_models_vs_from_json :
    (∀ data mime_type,
        EmbImage.is_valid_data data = true →
        EmbImage.is_valid_mime_type mime_type = true →
        EmbImage.initDefaults data mime_type =
          Except.ok ⟨data, mime_type, [], some EmbModels.TEXT_EMBEDDING_3_SMALL,
            some VisionModels.GPT_4O_MINI, none, none, none, none, none⟩)
  ∧ (∀ x : EmbImage,
        x.emb_model = some EmbModels.TEXT_EMBEDDING_3_SMALL →
        x.vision_model = some VisionModels.GPT_4O_MINI →
        pyGet x.to_json_fields "emb_model" =
          some (JVal.str EmbModels.TEXT_EMBEDDING_3_SMALL) ∧
        pyGet x.to_json_fields "vision_model" =
          some (JVal.str VisionModels.GPT_4O_MINI))
  ∧ (∀ (wire : List (String × JVal)) (y : EmbImage),
        pyGet wire "emb_model" = none →
        pyGet wire "vision_model" = none →
        EmbImage.from_json wire = Except.ok y →
        y.emb_model = none ∧ y.vision_model = none ∧
        pyGet y.to_json_fields "emb_model" = none ∧
        pyGet y.to_json_fields "vision_model" = none) := by
  refine ⟨?_, ?_, ?_⟩
  · intro data mime_type h1 h2
    exact EmbImage.init_ok data mime_type (some EmbModels.TEXT_EMBEDDING_3_SMALL)
      (some VisionModels.GPT_4O_MINI) none none none none none h1 h2 rfl rfl
  · intro x hem hvm
    rw [to_json_pyGet_emb_model, to_json_pyGet_vision_model, hem, hvm]
    exact ⟨rfl, rfl⟩
  · intro wire y h1 h2 h3
    have hem : jgetStr wire "emb_model" = none := by simp [jgetStr, jgetOpt, h1]
    have hvm : jgetStr wire "vision_model" = none := by simp [jgetStr, jgetOpt, h2]
    unfold EmbImage.from_json at h3
    cases hd : jgetOpt wire "data" with
    | none =>
      rw [hd] at h3
      exact Except.noConfusion h3
    | some dv =>
      rw [hd] at h3
      cases dv with
      | str ds =>
        cases hm : jgetOpt wire "mime_type" with
        | none =>
          rw [hm] at h3
          exact Except.noConfusion h3
        | some mv =>
          rw [hm] at h3
          cases mv with
          | str ms =>
            dsimp only at h3
            cases hi : EmbImage.init ds ms (jgetStr wire "emb_model")
                (jgetStr wire "vision_model") (jgetInt wire "max_chunk_size")
                (jgetInt wire "chunk_overlap") (jgetBool wire "is_separator_regex")
                (jgetStrList wire "separators") (jgetBool wire "keep_separator") with
            | error e =>
              rw [hi] at h3
              exact Except.noConfusion h3
            | ok inst =>
              rw [hi] at h3
              injection h3 with h3
              have hinst := EmbImage.init_ok_inv ds ms (jgetStr wire "emb_model")
                (jgetStr wire "vision_model") (jgetInt wire "max_chunk_size")
                (jgetInt wire "chunk_overlap") (jgetBool wire "is_separator_regex")
                (jgetStrList wire "separators") (jgetBool wire "keep_separator") inst hi
              subst hinst
              subst h3
              refine ⟨by simp [hem], by simp [hvm], ?_, ?_⟩
              · rw [to_json_pyGet_emb_model]
                simp [hem]
              · rw [to_json_pyGet_vision_model]
                simp [hvm]
          | null => exact Except.noConfusion h3
          | bool b => exact Except.noConfusion h3
          | int n => exact Except.noConfusion h3
          | arr xs => exact Except.noConfusion h3
          | obj o => exact Except.noConfusion h3
      | null => exact Except.noConfusion h3
      | bool b => exact Except.noConfusion h3
      | int n => exact Except.noConfusion h3
      | arr xs => exact Except.noConfusion h3
      | obj o => exact Except.noConfusion h3

/-- Witness for C10: default application on a concrete construction. -/
theorem embimage_default_models_vs_from_json_witness :
    EmbImage.is_valid_data "QUJD" = true ∧
    EmbImage.initDefaults "QUJD" "image/png" =
      Except.ok ⟨"QUJD", "image/png", [], some EmbModels.TEXT_EMBEDDING_3_SMALL,
        some VisionModels.GPT_4O_MINI, none, none, none, none, none⟩ :=
  ⟨by decide, embimage_default_models_vs_from_json.1 "QUJD" "image/png"
      (by decide) (by decide)⟩

/-- Counterexample to claim C3: handle_response branches on requests'
raise_for_status, which raises only for statuses 400-599, so a 302 (non-2xx)
with a JSON-decodable body is returned as success instead of being classified
by its envelope; and a 500 whose body decodes to a non-object JSON value is not
classified either (.get raises an AttributeError that escapes). -/
theorem handle_response_non2xx_cex :
    handle_response ⟨302, "x", some (JVal.obj [("code", JVal.int 401),
        ("message", JVal.str "bad key")])⟩ =
      HandleResult.success (JVal.obj [("code", JVal.int 401),
        ("message", JVal.str "bad key")])
  ∧ handle_response ⟨500, "oops", some (JVal.str "oops")⟩ =
      HandleResult.uncaughtAttributeError :=
  ⟨rfl, rfl⟩

/-- Claim C3 (amended): for every transport status in 400..599 whose body
decodes to a JSON object, classification reads the envelope code and message
with .get defaults (500 and "An unknown error occurred."; status is read but
unused) and raises AuthenticationError when code == 401, ClientRequestError
when 400 <= code < 500 and code != 401, and ServerError otherwise; when the
body is not valid JSON it raises APIClientError carrying the transport status
code and the raw body text. -/
theorem handle_response_error_classification (sc : Int) (text : String)
    (env : List (String × JVal)) (c : Int) (m : JVal)
    (h1 : 400 ≤ sc) (h2 : sc ≤ 599)
    (hc : (pyGet env "code").getD (JVal.int 500) = JVal.int c)
    (hm : (pyGet env "message").getD (JVal.str "An unknown error occurred.") = m) :
    (c = 401 →
      handle_response ⟨sc, text, some (JVal.obj env)⟩ =
        HandleResult.authenticationError (JVal.int c) m)
  ∧ (400 ≤ c → c < 500 → c ≠ 401 →
      handle_response ⟨sc, text, some (JVal.obj env)⟩ =
        HandleResult.clientRequestError (JVal.int c) m)
  ∧ (c < 400 ∨ 500 ≤ c →
      handle_response ⟨sc, text, some (JVal.obj env)⟩ =
        HandleResult.serverError (JVal.int c) m)
  ∧ handle_response ⟨sc, text, none⟩ = HandleResult.apiClientError sc text := by
  subst hm
  refine ⟨?_, ?_, ?_, handle_response_no_json_error sc text h1 h2⟩
  · intro h401
    rw [handle_response_envelope sc text env c h1 h2 hc, if_pos h401]
  · intro hge hlt hne
    rw [handle_response_envelope sc text env c h1 h2 hc, if_neg hne, if_pos ⟨hge, hlt⟩]
  · intro hout
    have hne : ¬ c = 401 := by omega
    have hnr : ¬ (400 ≤ c ∧ c < 500) := by omega
    rw [handle_response_envelope sc text env c h1 h2 hc, if_neg hne, if_neg hnr]

/-- Witness for C3 (amended): the 401 rule at a concrete envelope. -/
theorem handle_response_error_classification_witness :
    handle_response ⟨401, "x", some (JVal.obj [("code", JVal.int 401),
        ("message", JVal.str "bad key")])⟩ =
      HandleResult.authenticationError (JVal.int 401) (JVal.str "bad key") :=
  (handle_response_error_classification 401 "x"
      [("code", JVal.int 401), ("message", JVal.str "bad key")] 401 (JVal.str "bad key")
      (by decide) (by decide) rfl rfl).1 rfl

/-- Counterexample to claim C5: a 200 response whose body is not valid JSON
makes the decode exception escape handle_response unclassified; the generic
failure carrying the status and raw text is not produced. -/
theorem handle_response_2xx_decode_cex :
    handle_response ⟨200, "upstream down", none⟩ = HandleResult.uncaughtJSONDecodeError
  ∧ handle_response ⟨200, "upstream down", none⟩ ≠
      HandleResult.apiClientError 200 "upstream down" :=
  ⟨rfl, fun h => HandleResult.noConfusion h⟩

/-- Claim C5 (amended): for every 2xx transport status whose raw body is not
valid JSON, handle_response does not classify the failure: raise_for_status
does not raise on 2xx, and the JSONDecodeError from response.json() propagates
to the caller unclassified. -/
theorem handle_response_2xx_decode_escape (sc : Int) (text : String)
    (h1 : 200 ≤ sc) (h2 : sc ≤ 299) :
    handle_response ⟨sc, text, none⟩ = HandleResult.uncaughtJSONDecodeError := by
  have hcond : ¬ (400 ≤ sc ∧ sc ≤ 599) := by omega
  simp [handle_response, hcond]

/-- Witness for C5 (amended) at a concrete 204 response. -/
theorem handle_response_2xx_decode_escape_witness :
    handle_response ⟨204, "", none⟩ = HandleResult.uncaughtJSONDecodeError :=
  handle_response_2xx_decode_escape 204 "" (by decide) (by decide)

/-- Counterexample to claim C6: an envelope code of 300 is below 500, yet the
Server failure kind is produced (the final else also catches codes below
400). -/
theorem handle_response_server_below_500_cex :
    handle_response ⟨500, "x", some (JVal.obj [("code", JVal.int 300),
        ("message", JVal.str "m")])⟩ =
      HandleResult.serverError (JVal.int 300) (JVal.str "m")
  ∧ (300 : Int) < 500 :=
  ⟨rfl, by decide⟩

/-- Claim C6 (amended): for every 400..599 status whose body decodes to a JSON
object carrying an integer code, the Server failure kind is produced exactly
when the code lies outside the client range: code < 400 or code >= 500 (not
exactly when code >= 500). -/
theorem handle_response_server_iff (sc : Int) (text : String)
    (env : List (String × JVal)) (c : Int) (m : JVal)
    (h1 : 400 ≤ sc) (h2 : sc ≤ 599)
    (hc : (pyGet env "code").getD (JVal.int 500) = JVal.int c)
    (hm : (pyGet env "message").getD (JVal.str "An unknown error occurred.") = m) :
    handle_response ⟨sc, text, some (JVal.obj env)⟩ =
        HandleResult.serverError (JVal.int c) m
      ↔ (c < 400 ∨ 500 ≤ c) := by
  subst hm
  rw [handle_response_envelope sc text env c h1 h2 hc]
  by_cases h401 : c = 401
  · rw [if_pos h401]
    constructor
    · intro h
      exact HandleResult.noConfusion h
    · intro h
      omega
  · rw [if_neg h401]
    by_cases hcr : 400 ≤ c ∧ c < 500
    · rw [if_pos hcr]
      constructor
      · intro h
        exact HandleResult.noConfusion h
      · intro h
        omega
    · rw [if_neg hcr]
      constructor
      · intro h
        omega
      · intro h
        rfl

/-- Witness for C6 (amended) at a concrete 502 with envelope code 503. -/
theorem handle_response_server_iff_witness :
    handle_response ⟨502, "x", some (JVal.obj [("code", JVal.int 503),
        ("message", JVal.str "boom")])⟩ =
      HandleResult.serverError (JVal.int 503) (JVal.str "boom") :=
  (handle_response_server_iff 502 "x"
      [("code", JVal.int 503), ("message", JVal.str "boom")] 503 (JVal.str "boom")
      (by decide) (by decide) rfl rfl).mpr (by decide)
